import Mathlib

/-!
Verification of the Evolvex career-analysis scoring engine.

Shallow embedding of the Python sources `holistic_score.py`,
`internship_matcher.py`, `openrouter_llm.py` into Lean 4.

Modelling conventions:
* Python numbers (int and float alike) are modelled as exact rationals `ℚ`;
  the binary rounding of Python floats is abstracted away.
* A Python dict used as a record is modelled as a structure whose fields are
  `Option`-valued (`none` = key absent); `d.get(k, default)` becomes
  `field.getD default`.  Dict truthiness (`if not d:`) is the disjunction of
  an `other` flag (the dict holds unrelated keys) and the presence of any
  modelled key.
* `datetime.now().year`, read by the certification recency scoring, is passed
  in as an explicit `year : ℤ` parameter.
* Python `str.lower` is modelled with the ASCII case map `pyLower` (the
  scored keyword tables are ASCII), and `needle in haystack` with the
  executable substring test `pyIn`.
-/

/-- Python `bool` used as a number (`sum([b1, b2, b3])`). -/
def boolRat (b : Bool) : ℚ := if b then 1 else 0

/-- Python `int(x)` on a number: truncation toward zero. -/
def pyTrunc (q : ℚ) : ℤ := if 0 ≤ q then ⌊q⌋ else ⌈q⌉

/-- Does the char list begin with the given pattern?  (Bool-valued prefix
test used to model Python `str.startswith` and `in`.) -/
def seqStarts : List Char → List Char → Bool
  | [], _ => true
  | _ :: _, [] => false
  | a :: p, b :: l => a == b && seqStarts p l

/-- Occurrence of `needle` anywhere in the char list: Python `in` on strings. -/
def pyInChars (needle : List Char) : List Char → Bool
  | [] => seqStarts needle []
  | b :: t => seqStarts needle (b :: t) || pyInChars needle t

/-- Python `s.lower()` (ASCII case mapping, matching the scored keyword
tables). -/
def pyLower (s : String) : String := String.mk (s.data.map Char.toLower)

/-- Python `needle in haystack` for strings. -/
def pyIn (needle haystack : String) : Bool :=
  pyInChars needle.data haystack.data

/-- Python `s.startswith(pre)`. -/
def pyStartsWith (s pre : String) : Bool :=
  seqStarts pre.data s.data

/-- Deduplication keeping first occurrences, by accumulated seen-set. -/
def pyDedupAux (seen : List String) : List String → List String
  | [] => []
  | x :: xs => if seen.contains x then pyDedupAux seen xs else x :: pyDedupAux (x :: seen) xs

/-- Python `list(dict.fromkeys(xs))`: deduplication keeping first occurrences. -/
def pyDedup (l : List String) : List String := pyDedupAux [] l

/-- An ASCII whitespace character (Python `str.strip` removes unicode
whitespace; only ASCII occurs in the modelled inputs). -/
def isPySpace (c : Char) : Bool :=
  c == ' ' || c == '\t' || c == '\n' || c == '\r' || c == '\x0b' || c == '\x0c'

/-- Python `s.strip()`. -/
def pyStrip (s : String) : String :=
  String.mk (((s.data.dropWhile isPySpace).reverse.dropWhile isPySpace).reverse)

/-- Truthiness of an optional string field: key present with nonempty value
(Python `if d.get('k'):` for string-valued keys). -/
def optStrTruthy (o : Option String) : Bool :=
  !(o.getD "" == "")

/-- Key present with a nonnegative numeric value, or absent.  Used to state
the amended capping invariant. -/
def optNN (o : Option ℚ) : Bool :=
  match o with
  | none => true
  | some q => decide (0 ≤ q)

/-- Python `int(s[:4])` inside `try/except`: the year prefix of a
certification date.  (Python `int` also accepts signs/whitespace; only the
all-digit case occurs in dates and is modelled.) -/
def yearOf (s : String) : Option ℤ :=
  let t := s.data.take 4
  if t ≠ [] ∧ t.all Char.isDigit then
    some (t.foldl (fun acc c => acc * 10 + ((c.toNat : ℤ) - 48)) 0)
  else none

section HolisticScore

/-! Embedding of `holistic_score.py` (`HolisticCareerScore`). -/

/-- The `resume_analysis` dict consumed by `_score_resume`. -/
structure ResumeAnalysis where
  ats_score : Option ℚ
  has_summary : Option Bool
  has_quantifiable_achievements : Option Bool
  keyword_density : Option ℚ
  formatting_score : Option ℚ
  sections_count : Option ℚ
  deriving DecidableEq

/-- One record of the `projects` list. -/
structure Project where
  name : Option String
  description : Option String
  github_url_truthy : Bool
  demo_url_truthy : Bool
  stars : Option ℚ
  language : Option String
  deriving DecidableEq

/-- One record of the `certifications` list. -/
structure Certification where
  name : Option String
  provider : Option String
  date : Option String
  deriving DecidableEq

/-- One record of the `extracurricular` list; `achievements`/`impact` enter
only through their truthiness, `role` through keyword containment. -/
structure Activity where
  role : Option String
  achievements_truthy : Bool
  impact_truthy : Bool
  deriving DecidableEq

/-- The `github_stats` dict. `other` flags unmodelled keys (they make the
dict truthy without affecting any score). -/
structure GithubStats where
  public_repos : Option ℚ
  total_contributions : Option ℚ
  total_stars : Option ℚ
  longest_streak : Option ℚ
  other : Bool
  deriving DecidableEq

/-- The `learning_progress` dict. -/
structure LearningProgress where
  completed_courses : Option ℚ
  in_progress_courses : Option ℚ
  total_hours : Option ℚ
  other : Bool
  deriving DecidableEq

/-- The `interview_scores` dict. -/
structure InterviewScores where
  questions_practiced : Option ℚ
  average_score : Option ℚ
  improvement_rate : Option ℚ
  other : Bool
  deriving DecidableEq

/-- Dict truthiness for `github_stats` (`if not github_stats:`). -/
def GithubStats.truthy (g : GithubStats) : Bool :=
  g.other || g.public_repos.isSome || g.total_contributions.isSome ||
    g.total_stars.isSome || g.longest_streak.isSome

/-- Dict truthiness for `learning_progress`. -/
def LearningProgress.truthy (l : LearningProgress) : Bool :=
  l.other || l.completed_courses.isSome || l.in_progress_courses.isSome ||
    l.total_hours.isSome

/-- Dict truthiness for `interview_scores`. -/
def InterviewScores.truthy (i : InterviewScores) : Bool :=
  i.other || i.questions_practiced.isSome || i.average_score.isSome ||
    i.improvement_rate.isSome

/-- A `{'percentage': ..., 'details': ...}` result of a category scorer
(`weighted_score`/`max_points` are attached later by the aggregator). -/
structure CategoryScore where
  percentage : ℚ
  details : String
  deriving DecidableEq

/-- The full profile dict passed to `calculate_comprehensive_score`; a
missing key and its empty default are identified. -/
structure ProfileData where
  resume_analysis : ResumeAnalysis
  skills : List String
  skill_proficiency : List ℚ
  projects : List Project
  certifications : List Certification
  extracurricular : List Activity
  github_stats : GithubStats
  learning_progress : LearningProgress
  interview_scores : InterviewScores

/-- `_score_resume`. -/
def scoreResume (r : ResumeAnalysis) : CategoryScore :=
  let ats := r.ats_score.getD 0
  let s1 := ats / 100 * 40
  let has_kw : Bool := decide (r.keyword_density.getD 0 > 0.5)
  let content := (boolRat (r.has_summary.getD false) +
      boolRat (r.has_quantifiable_achievements.getD false) + boolRat has_kw) / 3 * 30
  let fmt := r.formatting_score.getD 70
  let s3 := fmt / 100 * 20
  let completeness := min (r.sections_count.getD 0 / 5) 1 * 10
  { percentage := min (s1 + content + s3 + completeness) 100
    details := "Resume quality and ATS compatibility" }

/-- Keyword tables of `_score_skills`. -/
def techKeywords : List String := ["python", "java", "javascript", "sql", "react"]

/-- Soft-skill keyword table of `_score_skills`. -/
def softKeywords : List String := ["communication", "leadership", "teamwork"]

/-- `_score_skills`. -/
def scoreSkills (skills : List String) (proficiency : List ℚ) : CategoryScore :=
  let count_score := min ((skills.length : ℚ) / 15) 1 * 30
  let has_tech := skills.any (fun sk => techKeywords.any (fun kw => pyIn kw (pyLower sk)))
  let has_soft := skills.any (fun sk => softKeywords.any (fun kw => pyIn kw (pyLower sk)))
  let diversity := (boolRat has_tech + boolRat has_soft) / 2 * 30
  let prof := if proficiency ≠ [] then
      proficiency.sum / (proficiency.length : ℚ) / 100 * 40
    else 20
  { percentage := min (count_score + diversity + prof) 100
    details := toString skills.length ++ " skills with varying proficiency" }

/-- Per-project quality score inside `_score_projects`. -/
def projectQuality (p : Project) : ℚ :=
  let q1 := if optStrTruthy p.description then (20 : ℚ) else 0
  let q2 := if p.github_url_truthy then (20 : ℚ) else 0
  let q3 := if p.demo_url_truthy then (20 : ℚ) else 0
  let stars := p.stars.getD 0
  let q4 := if stars > 0 then min (stars * 5) 20 else 0
  let q5 := if pyIn "complex" (pyLower (p.description.getD "")) then (20 : ℚ) else 0
  min (q1 + q2 + q3 + q4 + q5) 100

/-- `_score_projects`. -/
def scoreProjects (projects : List Project) : CategoryScore :=
  if projects = [] then { percentage := 0, details := "No projects found" }
  else
    let count_score := min ((projects.length : ℚ) / 8) 1 * 25
    let avg_quality := (projects.map projectQuality).sum / (projects.length : ℚ)
    let languages := (projects.map (fun p => p.language.getD "Unknown")).eraseDups
    let diversity := min ((languages.length : ℚ) / 4) 1 * 25
    { percentage := min (count_score + avg_quality / 100 * 50 + diversity) 100
      details := toString projects.length ++ " projects across " ++
        toString languages.length ++ " technologies" }

/-- Trusted-provider table of `_score_certifications`. -/
def trustedProviders : List String := ["google", "microsoft", "aws", "ibm", "coursera", "edx"]

/-- Is the certification from a trusted provider (substring test on the
lowercased provider)? -/
def certTrusted (c : Certification) : Bool :=
  trustedProviders.any (fun pr => pyIn pr (pyLower (c.provider.getD "")))

/-- Is the certification recent: date key truthy, its year prefix parses and
lies within two years of the current year (`datetime.now().year`)? -/
def certRecent (year : ℤ) (c : Certification) : Bool :=
  optStrTruthy c.date &&
    match yearOf (c.date.getD "") with
    | some y => decide (year - y ≤ 2)
    | none => false

/-- `_score_certifications`; `year` is the ambient `datetime.now().year`. -/
def scoreCertifications (certs : List Certification) (year : ℤ) : CategoryScore :=
  if certs = [] then { percentage := 0, details := "No certifications" }
  else
    let n : ℚ := certs.length
    let count_score := min (n / 8) 1 * 30
    let trusted : ℚ := (certs.countP (fun c => certTrusted c))
    let quality := min (trusted / max n 1) 1 * 50
    let recent : ℚ := (certs.countP (fun c => certRecent year c))
    let recency := min (recent / max n 1) 1 * 20
    { percentage := min (count_score + quality + recency) 100
      details := toString certs.length ++ " certifications, " ++
        toString (certs.countP (fun c => certTrusted c)) ++ " from top providers" }

/-- Leadership keyword table of `_score_extracurricular`. -/
def leadershipKeywords : List String := ["president", "lead", "founder", "organizer", "captain"]

/-- `_score_extracurricular`. -/
def scoreExtracurricular (activities : List Activity) : CategoryScore :=
  if activities = [] then { percentage := 0, details := "No extracurricular activities" }
  else
    let n : ℚ := activities.length
    let count_score := min (n / 6) 1 * 30
    let leadership : ℚ := activities.countP
      (fun a => leadershipKeywords.any (fun kw => pyIn kw (pyLower (a.role.getD ""))))
    let leadership_score := min (leadership / max n 1) 1 * 40
    let impact : ℚ := activities.countP (fun a => a.achievements_truthy || a.impact_truthy)
    let impact_score := min (impact / max n 1) 1 * 30
    { percentage := min (count_score + leadership_score + impact_score) 100
      details := toString activities.length ++ " activities" }

/-- `_score_github`. -/
def scoreGithub (g : GithubStats) : CategoryScore :=
  if !g.truthy then { percentage := 0, details := "No GitHub activity" }
  else
    let repos := g.public_repos.getD 0
    let repo_score := min (repos / 15) 1 * 25
    let contributions := g.total_contributions.getD 0
    let contrib_score := min (contributions / 500) 1 * 35
    let stars := g.total_stars.getD 0
    let star_score := min (stars / 50) 1 * 20
    let streak := g.longest_streak.getD 0
    let consistency_score := min (streak / 30) 1 * 20
    { percentage := min (repo_score + contrib_score + star_score + consistency_score) 100
      details := "GitHub activity" }

/-- `_score_learning`. -/
def scoreLearning (l : LearningProgress) : CategoryScore :=
  if !l.truthy then { percentage := 50, details := "No learning data" }
  else
    let completed := l.completed_courses.getD 0
    let completion_score := min (completed / 10) 1 * 40
    let in_progress := l.in_progress_courses.getD 0
    let progress_score := min (in_progress / 5) 1 * 30
    let hours := l.total_hours.getD 0
    let hours_score := min (hours / 100) 1 * 30
    { percentage := min (completion_score + progress_score + hours_score) 100
      details := "learning progress" }

/-- `_score_interview_prep`. -/
def scoreInterviewPrep (i : InterviewScores) : CategoryScore :=
  if !i.truthy then { percentage := 40, details := "No interview practice data" }
  else
    let practice_count := i.questions_practiced.getD 0
    let practice_score := min (practice_count / 50) 1 * 30
    let avg := i.average_score.getD 0
    let performance_score := avg / 100 * 50
    let improvement := i.improvement_rate.getD 0
    let trend_score := min (improvement / 20) 1 * 20
    { percentage := min (practice_score + performance_score + trend_score) 100
      details := "interview readiness" }

/-- The weighted total of `calculate_comprehensive_score`: the loop
`total_score += (percentage / 100) * max_points` unrolled over the
`SCORE_COMPONENTS` table (max points are the weights times 850: 127.5, 170,
153, 102, 85, 85, 68, 59.5). -/
def totalScore (p : ProfileData) (year : ℤ) : ℚ :=
  (scoreResume p.resume_analysis).percentage / 100 * 127.5 +
  (scoreSkills p.skills p.skill_proficiency).percentage / 100 * 170 +
  (scoreProjects p.projects).percentage / 100 * 153 +
  (scoreCertifications p.certifications year).percentage / 100 * 102 +
  (scoreExtracurricular p.extracurricular).percentage / 100 * 85 +
  (scoreGithub p.github_stats).percentage / 100 * 85 +
  (scoreLearning p.learning_progress).percentage / 100 * 68 +
  (scoreInterviewPrep p.interview_scores).percentage / 100 * 59.5

/-- `SCORE_RANGES`: closed ranges paired with their rating names, in the
source's (insertion) order.  The presentational fields (emoji, color,
description, opportunities) are determined by the rating and omitted. -/
def SCORE_RANGES : List ((ℚ × ℚ) × String) :=
  [((750, 850), "Exceptional"),
   ((650, 749), "Excellent"),
   ((550, 649), "Good"),
   ((450, 549), "Fair"),
   ((0, 449), "Building")]

/-- The range-scan loop of `_get_score_info`: the first range with
`min_score <= score <= max_score`, if any. -/
def findRange (score : ℚ) : Option ((ℚ × ℚ) × String) :=
  SCORE_RANGES.find? (fun r => decide (r.1.1 ≤ score) && decide (score ≤ r.1.2))

/-- `_get_score_info`: rating of the first matching range, with the
`SCORE_RANGES[(0, 449)]` ("Building") fallback for scores in no range. -/
def getScoreInfo (score : ℚ) : String :=
  ((findRange score).map (fun r => r.2)).getD "Building"

/-- `_calculate_percentile`. -/
def calculatePercentile (score : ℚ) : ℤ :=
  if score ≥ 750 then 95 + pyTrunc ((score - 750) / 10)
  else if score ≥ 650 then 75 + pyTrunc ((score - 650) / 5)
  else if score ≥ 550 then 50 + pyTrunc ((score - 550) / 4)
  else if score ≥ 450 then 25 + pyTrunc ((score - 450) / 4)
  else pyTrunc (score / 18)

/-- Python `round(x, 1)` (round half to even, one decimal; binary float
representation effects abstracted). -/
def pyRound1 (x : ℚ) : ℚ :=
  let r := x * 10
  let f := ⌊r⌋
  let k : ℤ :=
    if r - f < 1 / 2 then f
    else if r - f > 1 / 2 then f + 1
    else if f % 2 = 0 then f else f + 1
  (k : ℚ) / 10

/-- The fields of the `calculate_comprehensive_score` result dict that the
claims inspect (component breakdown, strengths/weaknesses/recommendations
and other presentational output are functions of the same component scores
and are omitted). -/
structure ComprehensiveResult where
  total_score : ℚ
  rating : String
  percentile : ℤ
  components : List CategoryScore
  deriving DecidableEq

/-- `calculate_comprehensive_score`; `year` is `datetime.now().year` at the
moment of the call (it reaches only the certifications component). -/
def calculateComprehensiveScore (p : ProfileData) (year : ℤ) : ComprehensiveResult :=
  let t := totalScore p year
  { total_score := pyRound1 t
    rating := getScoreInfo t
    percentile := calculatePercentile t
    components :=
      [scoreResume p.resume_analysis,
       scoreSkills p.skills p.skill_proficiency,
       scoreProjects p.projects,
       scoreCertifications p.certifications year,
       scoreExtracurricular p.extracurricular,
       scoreGithub p.github_stats,
       scoreLearning p.learning_progress,
       scoreInterviewPrep p.interview_scores] }

end HolisticScore

section InternshipMatcher

/-! Embedding of `internship_matcher.py` (`InternshipMatcher`). -/

/-- One value of the `INTERNSHIP_CATEGORIES` dict (the presentational
`avg_stipend_range`/`duration` strings are omitted). -/
structure CategoryInfo where
  required_skills : List String
  preferred_skills : List String
  keywords : List String
  deriving DecidableEq

/-- `INTERNSHIP_CATEGORIES`, in insertion order. -/
def INTERNSHIP_CATEGORIES : List (String × CategoryInfo) :=
  [("Software Development",
    { required_skills := ["Programming", "Problem Solving", "Data Structures"]
      preferred_skills := ["Python", "Java", "C++", "JavaScript", "Git"]
      keywords := ["software", "developer", "programming", "coding", "backend", "frontend"] }),
   ("Data Science/Analytics",
    { required_skills := ["Python", "Statistics", "Data Analysis"]
      preferred_skills := ["Machine Learning", "SQL", "Pandas", "NumPy", "Visualization"]
      keywords := ["data", "analytics", "machine learning", "ai", "ml", "statistics"] }),
   ("Web Development",
    { required_skills := ["HTML", "CSS", "JavaScript"]
      preferred_skills := ["React", "Node.js", "MongoDB", "Express", "REST API"]
      keywords := ["web", "frontend", "backend", "fullstack", "react", "angular"] }),
   ("Mobile App Development",
    { required_skills := ["Programming", "Mobile Development"]
      preferred_skills := ["Android", "iOS", "Flutter", "React Native", "Swift", "Kotlin"]
      keywords := ["mobile", "android", "ios", "app development", "flutter"] }),
   ("UI/UX Design",
    { required_skills := ["Design", "User Research", "Prototyping"]
      preferred_skills := ["Figma", "Adobe XD", "Sketch", "User Testing", "Wireframing"]
      keywords := ["ui", "ux", "design", "user experience", "interface", "figma"] }),
   ("Digital Marketing",
    { required_skills := ["Marketing", "Communication", "Analytics"]
      preferred_skills := ["SEO", "Social Media", "Content Marketing", "Google Analytics"]
      keywords := ["marketing", "digital", "seo", "social media", "content", "campaigns"] }),
   ("Content Writing",
    { required_skills := ["Writing", "Communication", "Research"]
      preferred_skills := ["SEO Writing", "Technical Writing", "Copywriting", "Editing"]
      keywords := ["content", "writing", "copywriting", "blog", "technical writing"] }),
   ("Business Development",
    { required_skills := ["Communication", "Sales", "Negotiation"]
      preferred_skills := ["CRM", "Market Research", "Presentation", "Client Management"]
      keywords := ["business development", "sales", "bd", "partnerships", "client"] }),
   ("Graphic Design",
    { required_skills := ["Design", "Creativity", "Visual Communication"]
      preferred_skills := ["Photoshop", "Illustrator", "InDesign", "Canva", "Branding"]
      keywords := ["graphic", "design", "visual", "creative", "photoshop", "illustrator"] }),
   ("Cybersecurity",
    { required_skills := ["Security", "Networking", "Problem Solving"]
      preferred_skills := ["Penetration Testing", "Security Analysis", "Firewall", "Encryption"]
      keywords := ["security", "cybersecurity", "ethical hacking", "penetration", "network security"] }),
   ("Cloud Computing",
    { required_skills := ["Cloud Platforms", "Networking", "Linux"]
      preferred_skills := ["AWS", "Azure", "GCP", "Docker", "Kubernetes", "DevOps"]
      keywords := ["cloud", "aws", "azure", "gcp", "devops", "kubernetes"] }),
   ("Research",
    { required_skills := ["Research", "Analysis", "Critical Thinking"]
      preferred_skills := ["Academic Writing", "Data Collection", "Literature Review", "Statistics"]
      keywords := ["research", "academic", "study", "analysis", "investigation"] })]

/-- Python dict lookup on an association list: first binding of the key. -/
def dictGet (cat : String) : List (String × CategoryInfo) → Option CategoryInfo
  | [] => none
  | (k, v) :: rest => if k = cat then some v else dictGet cat rest

/-- The candidate profile consumed by the matcher. -/
structure CandidateProfile where
  skills : List String
  projects : List Project
  certifications : List Certification
  extracurricular : List Activity
  deriving DecidableEq

/-- `set(skill.lower() for skill in xs)`. -/
def lowerSet (xs : List String) : Finset String :=
  (xs.map pyLower).toFinset

/-- `required_match`: matched fraction of the required-skill set. -/
def requiredMatch (skills : List String) (info : CategoryInfo) : ℚ :=
  ((lowerSet skills ∩ lowerSet info.required_skills).card : ℚ) /
    max ((lowerSet info.required_skills).card : ℚ) 1

/-- `preferred_match`: matched fraction of the preferred-skill set. -/
def preferredMatch (skills : List String) (info : CategoryInfo) : ℚ :=
  ((lowerSet skills ∩ lowerSet info.preferred_skills).card : ℚ) /
    max ((lowerSet info.preferred_skills).card : ℚ) 1

/-- `skill_score = (required_match * 0.7 + preferred_match * 0.3) * 60`. -/
def skillScore (skills : List String) (info : CategoryInfo) : ℚ :=
  (requiredMatch skills info * 0.7 + preferredMatch skills info * 0.3) * 60

/-- Does the project's `name description` text contain one of the category
keywords? -/
def projectRelevant (info : CategoryInfo) (p : Project) : Bool :=
  info.keywords.any (fun kw =>
    pyIn kw (pyLower (p.name.getD "" ++ " " ++ p.description.getD "")))

/-- `relevant_projects` count. -/
def relevantProjects (projects : List Project) (info : CategoryInfo) : ℕ :=
  projects.countP (projectRelevant info)

/-- `project_score = min(relevant_projects * 10, 20)`. -/
def projectScoreM (projects : List Project) (info : CategoryInfo) : ℚ :=
  min ((relevantProjects projects info : ℚ) * 10) 20

/-- Does the certification's `name provider` text contain a category
keyword? -/
def certRelevant (info : CategoryInfo) (c : Certification) : Bool :=
  info.keywords.any (fun kw =>
    pyIn kw (pyLower (c.name.getD "" ++ " " ++ c.provider.getD "")))

/-- `relevant_certs` count. -/
def relevantCerts (certs : List Certification) (info : CategoryInfo) : ℕ :=
  certs.countP (certRelevant info)

/-- `cert_score = min(relevant_certs * 5, 10)`. -/
def certScoreM (certs : List Certification) (info : CategoryInfo) : ℚ :=
  min ((relevantCerts certs info : ℚ) * 5) 10

/-- `_calculate_experience_score`. -/
def experienceScore (p : CandidateProfile) : ℚ :=
  min (min ((p.projects.length : ℚ) * 2) 4 +
       min ((p.certifications.length : ℚ) * 1.5) 3 +
       min ((p.extracurricular.length : ℚ) * 0.5) 3) 10

/-- `total_score` of `calculate_match_score` (before the cap at 100). -/
def totalMatch (p : CandidateProfile) (info : CategoryInfo) : ℚ :=
  skillScore p.skills info + projectScoreM p.projects info +
    certScoreM p.certifications info + experienceScore p

/-- `match_score = min(total_score, 100)`. -/
def matchScoreNum (p : CandidateProfile) (info : CategoryInfo) : ℚ :=
  min (totalMatch p info) 100

/-- `_determine_readiness`. -/
def determineReadiness (score : ℚ) : String :=
  if score ≥ 75 then "Highly Ready - Strong Match"
  else if score ≥ 60 then "Ready - Good Match"
  else if score ≥ 40 then "Developing - Needs Preparation"
  else "Early Stage - Significant Preparation Needed"

/-- The analysis dict built by `calculate_match_score` for a valid category
(the `recommendations` strings and the echoed `category_info` are functions
of the same data and are omitted; the set-typed missing-skill values are
kept as finite sets since Python materialises them from sets). -/
structure MatchAnalysis where
  match_score : ℚ
  skill_match_percentage : ℚ
  required_skills_met : ℕ
  required_skills_total : ℕ
  preferred_skills_met : ℕ
  relevant_projects : ℕ
  relevant_certifications : ℕ
  missing_required_skills : Finset String
  missing_preferred_skills : Finset String
  readiness_level : String
  deriving DecidableEq

/-- The analysis body of `calculate_match_score`. -/
def matchAnalysis (p : CandidateProfile) (info : CategoryInfo) : MatchAnalysis :=
  { match_score := matchScoreNum p info
    skill_match_percentage := requiredMatch p.skills info * 100
    required_skills_met := (lowerSet p.skills ∩ lowerSet info.required_skills).card
    required_skills_total := (lowerSet info.required_skills).card
    preferred_skills_met := (lowerSet p.skills ∩ lowerSet info.preferred_skills).card
    relevant_projects := relevantProjects p.projects info
    relevant_certifications := relevantCerts p.certifications info
    missing_required_skills := lowerSet info.required_skills \ lowerSet p.skills
    missing_preferred_skills := lowerSet info.preferred_skills \ lowerSet p.skills
    readiness_level := determineReadiness (totalMatch p info) }

/-- Result of `calculate_match_score`: either the error dict
`{'match_score': 0, 'error': 'Invalid category'}` (and nothing else), or the
full analysis dict. -/
inductive MatchResult where
  | invalidCategory
  | ok (a : MatchAnalysis)
  deriving DecidableEq

/-- `calculate_match_score`.  `INTERNSHIP_CATEGORIES.get(cat, {})` followed
by `if not category_info:` amounts to a key lookup, every catalog value
being a nonempty dict. -/
def calculateMatchScore (p : CandidateProfile) (cat : String) : MatchResult :=
  match dictGet cat INTERNSHIP_CATEGORIES with
  | none => .invalidCategory
  | some info => .ok (matchAnalysis p info)

/-- One entry of the `find_best_matches` result list (the nested `analysis`
dict is `matchAnalysis` of the same inputs and is omitted). -/
structure MatchEntry where
  category : String
  match_score : ℚ
  readiness : String
  deriving DecidableEq

/-- The pre-sort `matches` list, built by iterating the catalog in insertion
order. -/
def catalogMatches (p : CandidateProfile) : List MatchEntry :=
  INTERNSHIP_CATEGORIES.map (fun ci =>
    { category := ci.1
      match_score := (matchAnalysis p ci.2).match_score
      readiness := (matchAnalysis p ci.2).readiness_level })

/-- Comparison used to model `matches.sort(key=lambda x: x['match_score'],
reverse=True)`: CPython's sort is stable, and with `reverse=True` it orders
by key descending keeping the original order of equal keys, which is
`mergeSort` with this relation. -/
def entryLE (a b : MatchEntry) : Bool :=
  decide (b.match_score ≤ a.match_score)

/-- `find_best_matches`. -/
def findBestMatches (p : CandidateProfile) (top_n : ℕ) : List MatchEntry :=
  ((catalogMatches p).mergeSort entryLE).take top_n

end InternshipMatcher

section OpenRouterLLM

/-! Embedding of the text generators of `openrouter_llm.py`.  The HTTP call
`call_openrouter_llm` is external: its result string (and the availability
probe `is_openrouter_available`) are passed in as parameters.  The
`isinstance(result, str)` guard is vacuous (the call always returns a
string) and is dropped. -/

/-- Letter runs of the lowercased text matching `\b[A-Za-z]{3,}\b`
(`re.findall` in `_generate_resume_improvements_fallback`): maximal ASCII
letter runs of length at least 3 whose neighbours are not word characters.
The `prev` argument carries the character preceding `cs`; at a run it is
never a letter, so passing the run's first letter onward is inconsequential
(the next step consumes a non-letter). -/
def extractWords (prev : Option Char) (cs : List Char) : List String :=
  match cs with
  | [] => []
  | c :: rest =>
    if h : c.isAlpha then
      let run := List.takeWhile Char.isAlpha (c :: rest)
      let rest2 := List.dropWhile Char.isAlpha (c :: rest)
      let prevOK := match prev with
        | none => true
        | some q => !(q.isDigit || q == '_')
      let nextOK := match rest2 with
        | [] => true
        | d :: _ => !(d.isDigit || d == '_')
      (if run.length ≥ 3 && prevOK && nextOK then [String.mk run] else []) ++
        extractWords (some c) rest2
    else extractWords (some c) rest
termination_by cs.length
decreasing_by
  · simp only [List.dropWhile_cons, h, if_true, List.length_cons]
    exact Nat.lt_succ_of_le (List.dropWhile_sublist _).length_le
  · simp

/-- The `common_buzzwords` set. -/
def commonBuzzwords : List String :=
  ["experience", "skills", "required", "preferred", "years", "team", "work"]

/-- `jd_keywords` of the resume-improvements fallback: filtered words, first
ten, as a set (Python set iteration order is abstracted as first-occurrence
order). -/
def jdKeywordsOf (jd : String) : List String :=
  pyDedup (((extractWords none (pyLower jd).data).filter
    (fun w => !(commonBuzzwords.contains w))).take 10)

/-- `_generate_resume_improvements_fallback`. -/
def resumeImprovementsFallback (jd_text : String) (missing_skills : List String) : String :=
  let top_missing := (pyDedup (missing_skills.map pyStrip)).take 8
  let jd_keywords := if jd_text == "" then [] else jdKeywordsOf jd_text
  let base : List String :=
    ["### 🚀 AI-Powered Resume Enhancement Recommendations",
     "\n**Immediate Action Items:**",
     "\n• **Professional Summary**: Add a compelling 2-3 line summary highlighting your value proposition",
     "• **Keywords Optimization**: Integrate job-specific terms naturally throughout your resume",
     "• **Quantify Achievements**: Add metrics (percentages, dollar amounts, time saved) to your accomplishments",
     "• **Skills Section**: Create a dedicated technical skills section with relevant technologies",
     "• **Action Verbs**: Start each bullet point with strong action verbs (Led, Developed, Optimized, Implemented)"]
  let kwBlock : List String :=
    if jd_keywords.isEmpty then []
    else
      ["\n**Job-Specific Keywords to Include:**",
       "\n• Integrate these terms: " ++ String.intercalate ", " (jd_keywords.take 6),
       "• Use them naturally in your experience descriptions and skills section"]
  let missBlock : List String :=
    if top_missing.isEmpty then []
    else
      ["\n**Address Missing Skills:**",
       "• **Highlight Transferable Experience**: Show how your current experience relates to required skills"] ++
      (top_missing.take 5).map (fun skill =>
        "  - For " ++ skill ++ ": Describe any related projects, coursework, or self-study")
  let finalBlock : List String :=
    ["\n**Professional Formatting:**",
     "• **Consistent Structure**: Use the same format for each role (Title, Company, Dates, Bullets)",
     "• **Bullet Point Optimization**: Limit to 3-5 bullets per role, prioritize most relevant accomplishments",
     "• **Length Management**: Keep to 1-2 pages, focus on most recent and relevant experience",
     "\n**ATS Optimization:**",
     "• **Standard Sections**: Use clear headings (Experience, Education, Skills, Projects)",
     "• **Keyword Density**: Ensure important terms appear 2-3 times throughout the document",
     "• **Simple Formatting**: Avoid complex layouts, stick to standard fonts and bullet points",
     "\n✅ **Next Steps**: Review each section against these recommendations and update 2-3 bullets to better showcase your fit for this specific role."]
  String.intercalate "\n" (base ++ kwBlock ++ missBlock ++ finalBlock)

/-- `enhance_resume_section`; `available` is the probe result, `llm_result`
the string `call_openrouter_llm` would return for the built prompt.  The
`resume_text` argument reaches only the prompt, not the fallback. -/
def enhanceResumeSection (available : Bool) (llm_result : String)
    (jd_text : String) (missing_skills : List String) : String :=
  if !available then resumeImprovementsFallback jd_text missing_skills
  else if pyStartsWith llm_result "Error:" then
    resumeImprovementsFallback jd_text missing_skills
  else llm_result

/-- The constant fallback text of `generate_project_ideas`. -/
def projectIdeasFallbackText : String :=
  "### Project Ideas (Fast Fallback)\n1. Metrics Dashboard: Build a small app that ingests CSV/JSON and renders KPI charts.\n2. Data ETL Mini-Pipeline: Extract from an API, clean with pandas, load to SQLite, expose a simple API.\n3. Resume Keyword Highlighter: Highlight JD-aligned keywords in a resume with a web UI.\n"

/-- `generate_project_ideas` (the resume text and skills reach only the
prompt). -/
def generateProjectIdeas (available : Bool) (llm_result : String) : String :=
  if !available then projectIdeasFallbackText
  else if pyStartsWith llm_result "Error:" then projectIdeasFallbackText
  else llm_result

/-- The constant fallback text of `generate_cover_letter`. -/
def coverLetterFallbackText : String :=
  "Dear Hiring Team,\n\nI\x27m excited to apply for this role. My background aligns with the position\x27s core requirements, and I\x27ve delivered measurable results in related projects. I\x27m particularly drawn to your focus on impact and quality. I\x27d welcome the chance to discuss how I can contribute.\n\nBest regards,\nYour Name"

/-- `generate_cover_letter` (the resume, job description and skills reach
only the prompt). -/
def generateCoverLetter (available : Bool) (llm_result : String) : String :=
  if !available then coverLetterFallbackText
  else if pyStartsWith llm_result "Error:" then coverLetterFallbackText
  else llm_result

end OpenRouterLLM

section InputClasses

/-! Input classes and concrete inputs referenced by the theorems. -/

/-- All numeric fields of a `resume_analysis` dict that reach the score are
nonnegative (or absent). -/
def resumeNN (r : ResumeAnalysis) : Bool :=
  optNN r.ats_score && optNN r.formatting_score && optNN r.sections_count

/-- All proficiency values are nonnegative. -/
def profNN (l : List ℚ) : Bool := l.all (fun q => decide (0 ≤ q))

/-- All numeric fields of a `github_stats` dict are nonnegative (or absent). -/
def githubNN (g : GithubStats) : Bool :=
  optNN g.public_repos && optNN g.total_contributions &&
    optNN g.total_stars && optNN g.longest_streak

/-- All numeric fields of a `learning_progress` dict are nonnegative (or
absent). -/
def learningNN (l : LearningProgress) : Bool :=
  optNN l.completed_courses && optNN l.in_progress_courses && optNN l.total_hours

/-- All numeric fields of an `interview_scores` dict are nonnegative (or
absent). -/
def interviewNN (i : InterviewScores) : Bool :=
  optNN i.questions_practiced && optNN i.average_score && optNN i.improvement_rate

/-- All numeric profile fields that can drag a component percentage below
zero are nonnegative. -/
def profileNN (p : ProfileData) : Bool :=
  resumeNN p.resume_analysis && profNN p.skill_proficiency &&
    githubNN p.github_stats && learningNN p.learning_progress &&
    interviewNN p.interview_scores

/-- An empty `resume_analysis` dict. -/
def emptyRA : ResumeAnalysis := ⟨none, none, none, none, none, none⟩

/-- An empty `github_stats` dict. -/
def emptyGH : GithubStats := ⟨none, none, none, none, false⟩

/-- An empty `learning_progress` dict. -/
def emptyLP : LearningProgress := ⟨none, none, none, false⟩

/-- An empty `interview_scores` dict. -/
def emptyIS : InterviewScores := ⟨none, none, none, false⟩

/-- A profile with every component missing/empty. -/
def emptyProfile : ProfileData :=
  ⟨emptyRA, [], [], [], [], [], emptyGH, emptyLP, emptyIS⟩

/-- A resume-analysis dict with only a (negative) `ats_score`. -/
def negRA : ResumeAnalysis := ⟨some (-1000), none, none, none, none, none⟩

/-- A resume-analysis dict with only the large negative `ats_score` −10000. -/
def negRA10k : ResumeAnalysis := ⟨some (-10000), none, none, none, none, none⟩

/-- A profile whose only datum is a large negative `ats_score`. -/
def negProfile : ProfileData :=
  ⟨negRA10k, [], [], [], [], [], emptyGH, emptyLP, emptyIS⟩

/-- A project record scoring full marks in `_score_projects`. -/
def fullProject (lang : String) : Project :=
  { name := some "App", description := some "complex system"
    github_url_truthy := true, demo_url_truthy := true
    stars := some 4, language := some lang }

/-- A trusted, recently dated certification. -/
def googleCert : Certification :=
  { name := some "Cloud Cert", provider := some "Google", date := some "2025-01-01" }

/-- A leadership activity with achievements. -/
def presActivity : Activity :=
  { role := some "President", achievements_truthy := true, impact_truthy := false }

/-- Fifteen skills covering the tech and soft keyword tables. -/
def fifteenSkills : List String :=
  ["Python", "Communication", "S1", "S2", "S3", "S4", "S5", "S6", "S7", "S8",
   "S9", "S10", "S11", "S12", "S13"]

/-- A benign profile whose weighted total, 649.5275, falls strictly between
the "Good" range (ending at 649) and the "Excellent" range (starting at
650): components at 14% (empty resume), 100% (skills, projects,
certifications, extracurricular, GitHub), 50% (empty learning) and 4.5%
(interview with `average_score = 9`), evaluated with the clock year 2026.
Eight projects scoring full quality across four languages. -/
def gapProjects : List Project :=
  [fullProject "A", fullProject "B", fullProject "C", fullProject "D",
   fullProject "A", fullProject "B", fullProject "C", fullProject "D"]

/-- Eight trusted, recent certifications. -/
def gapCerts : List Certification :=
  [googleCert, googleCert, googleCert, googleCert,
   googleCert, googleCert, googleCert, googleCert]

/-- Six leadership activities. -/
def gapActs : List Activity :=
  [presActivity, presActivity, presActivity, presActivity, presActivity, presActivity]

/-- GitHub stats at every cap. -/
def gapGH : GithubStats := ⟨some 15, some 500, some 50, some 30, false⟩

/-- Interview data with only `average_score = 9` (percentage 4.5). -/
def gapIS : InterviewScores := ⟨none, some 9, none, false⟩

def gapProfile : ProfileData :=
  { resume_analysis := emptyRA
    skills := fifteenSkills
    skill_proficiency := [100]
    projects := gapProjects
    certifications := gapCerts
    extracurricular := gapActs
    github_stats := gapGH
    learning_progress := emptyLP
    interview_scores := gapIS }

/-- A resume-analysis dict scoring the full 100%. -/
def fullResume : ResumeAnalysis :=
  ⟨some 100, some true, some true, some 1, some 100, some 5⟩

/-- Learning data scoring the full 100%.  (Used by the profile below, which
reaches the maximum total of 850 with the clock year 2026.) -/
def fullLP : LearningProgress := ⟨some 10, some 5, some 100, false⟩

/-- Interview data scoring the full 100%. -/
def fullIS : InterviewScores := ⟨some 50, some 100, some 20, false⟩

def fullProfile : ProfileData :=
  { gapProfile with
    resume_analysis := fullResume
    learning_progress := fullLP
    interview_scores := fullIS }

/-- The empty candidate profile for the matcher. -/
def emptyCand : CandidateProfile := ⟨[], [], [], []⟩

/-- The `Software Development` catalog entry. -/
def swDevInfo : CategoryInfo :=
  (dictGet "Software Development" INTERNSHIP_CATEGORIES).getD ⟨[], [], []⟩

/-- The `Data Science/Analytics` catalog entry. -/
def dataSciInfo : CategoryInfo :=
  (dictGet "Data Science/Analytics" INTERNSHIP_CATEGORIES).getD ⟨[], [], []⟩

/-- A one-skill candidate used to witness the monotonicity claim. -/
def c5Profile : CandidateProfile := ⟨["python"], [], [], []⟩

/-- The candidate-skill list of the spec's worked example. -/
def c1Skills : List String := ["Python", "React", "AWS"]

/-- The first catalog entry of `find_best_matches` on the empty candidate. -/
def entrySoftwareDev : MatchEntry :=
  ⟨"Software Development", 0, "Early Stage - Significant Preparation Needed"⟩

/-- The second catalog entry of `find_best_matches` on the empty candidate. -/
def entryDataSci : MatchEntry :=
  ⟨"Data Science/Analytics", 0, "Early Stage - Significant Preparation Needed"⟩

end InputClasses

section HelperLemmas

/-! Shared lemmas about the scorers. -/

lemma optNN_getD {o : Option ℚ} {d : ℚ} (hd : 0 ≤ d) (h : optNN o = true) :
    0 ≤ o.getD d := by
  cases o with
  | none => simpa using hd
  | some q => simpa [optNN] using h

lemma boolRat_nonneg (b : Bool) : 0 ≤ boolRat b := by
  cases b <;> simp [boolRat]

lemma minOne_mul_nonneg {x w : ℚ} (hx : 0 ≤ x) (hw : 0 ≤ w) : 0 ≤ min x 1 * w :=
  mul_nonneg (le_min hx zero_le_one) hw

lemma min100_nonneg {s : ℚ} (h : 0 ≤ s) : 0 ≤ min s (100 : ℚ) :=
  le_min h (by norm_num)

lemma scoreResume_pct_le (r : ResumeAnalysis) : (scoreResume r).percentage ≤ 100 :=
  min_le_right _ _

lemma scoreResume_pct_nonneg (r : ResumeAnalysis) (h : resumeNN r = true) :
    0 ≤ (scoreResume r).percentage := by
  simp only [resumeNN, Bool.and_eq_true] at h
  refine min100_nonneg ?_
  have h1 : 0 ≤ r.ats_score.getD 0 / 100 * 40 := by
    have := optNN_getD le_rfl h.1.1
    positivity
  have h2 : 0 ≤ (boolRat (r.has_summary.getD false) +
      boolRat (r.has_quantifiable_achievements.getD false) +
      boolRat (decide (r.keyword_density.getD 0 > 0.5))) / 3 * 30 := by
    have b1 := boolRat_nonneg (r.has_summary.getD false)
    have b2 := boolRat_nonneg (r.has_quantifiable_achievements.getD false)
    have b3 := boolRat_nonneg (decide (r.keyword_density.getD 0 > 0.5))
    positivity
  have h3 : 0 ≤ r.formatting_score.getD 70 / 100 * 20 := by
    have := optNN_getD (by norm_num : (0:ℚ) ≤ 70) h.1.2
    positivity
  have h4 : 0 ≤ min (r.sections_count.getD 0 / 5) 1 * 10 :=
    minOne_mul_nonneg (by have := optNN_getD le_rfl h.2; positivity) (by norm_num)
  linarith

lemma scoreSkills_pct_le (sk : List String) (pr : List ℚ) :
    (scoreSkills sk pr).percentage ≤ 100 :=
  min_le_right _ _

lemma scoreSkills_pct_nonneg (sk : List String) (pr : List ℚ)
    (h : profNN pr = true) : 0 ≤ (scoreSkills sk pr).percentage := by
  refine min100_nonneg ?_
  have h1 : 0 ≤ min ((sk.length : ℚ) / 15) 1 * 30 :=
    minOne_mul_nonneg (by positivity) (by norm_num)
  have h2 : 0 ≤ (boolRat (sk.any fun s => techKeywords.any fun kw => pyIn kw (pyLower s)) +
      boolRat (sk.any fun s => softKeywords.any fun kw => pyIn kw (pyLower s))) / 2 * 30 := by
    have b1 := boolRat_nonneg (sk.any fun s => techKeywords.any fun kw => pyIn kw (pyLower s))
    have b2 := boolRat_nonneg (sk.any fun s => softKeywords.any fun kw => pyIn kw (pyLower s))
    positivity
  have h3 : 0 ≤ (if pr ≠ [] then pr.sum / (pr.length : ℚ) / 100 * 40 else 20) := by
    split
    · have hs : 0 ≤ pr.sum := by
        refine List.sum_nonneg ?_
        intro q hq
        simp only [profNN, List.all_eq_true, decide_eq_true_eq] at h
        exact h q hq
      positivity
    · norm_num
  exact add_nonneg (add_nonneg h1 h2) h3

lemma projectQuality_nonneg (p : Project) : 0 ≤ projectQuality p := by
  unfold projectQuality
  refine le_min ?_ (by norm_num)
  have h1 : 0 ≤ (if optStrTruthy p.description = true then (20:ℚ) else 0) := by
    split <;> norm_num
  have h2 : 0 ≤ (if p.github_url_truthy = true then (20:ℚ) else 0) := by
    split <;> norm_num
  have h3 : 0 ≤ (if p.demo_url_truthy = true then (20:ℚ) else 0) := by
    split <;> norm_num
  have h4 : 0 ≤ (if p.stars.getD 0 > 0 then min (p.stars.getD 0 * 5) 20 else 0) := by
    split
    · rename_i hst
      exact le_min (by linarith) (by norm_num)
    · exact le_rfl
  have h5 : 0 ≤ (if pyIn "complex" (pyLower (p.description.getD "")) = true then (20:ℚ) else 0) := by
    split <;> norm_num
  linarith

lemma scoreProjects_pct_le (ps : List Project) : (scoreProjects ps).percentage ≤ 100 := by
  by_cases h : ps = []
  · subst h; norm_num [scoreProjects]
  · simp only [scoreProjects, if_neg h]
    exact min_le_right _ _

lemma scoreProjects_pct_nonneg (ps : List Project) : 0 ≤ (scoreProjects ps).percentage := by
  by_cases h : ps = []
  · subst h; norm_num [scoreProjects]
  · simp only [scoreProjects, if_neg h]
    refine min100_nonneg ?_
    have h1 : 0 ≤ min ((ps.length : ℚ) / 8) 1 * 25 :=
      minOne_mul_nonneg (by positivity) (by norm_num)
    have h2 : 0 ≤ (ps.map projectQuality).sum / (ps.length : ℚ) / 100 * 50 := by
      have hs : 0 ≤ (ps.map projectQuality).sum := by
        refine List.sum_nonneg ?_
        intro q hq
        obtain ⟨x, -, rfl⟩ := List.mem_map.mp hq
        exact projectQuality_nonneg x
      positivity
    have h3 : 0 ≤ min (((ps.map (fun p => p.language.getD "Unknown")).eraseDups.length : ℚ) / 4) 1 * 25 :=
      minOne_mul_nonneg (by positivity) (by norm_num)
    linarith

lemma scoreCertifications_pct_le (cs : List Certification) (y : ℤ) :
    (scoreCertifications cs y).percentage ≤ 100 := by
  by_cases h : cs = []
  · subst h; norm_num [scoreCertifications]
  · simp only [scoreCertifications, if_neg h]
    exact min_le_right _ _

lemma scoreCertifications_pct_nonneg (cs : List Certification) (y : ℤ) :
    0 ≤ (scoreCertifications cs y).percentage := by
  by_cases h : cs = []
  · subst h; norm_num [scoreCertifications]
  · simp only [scoreCertifications, if_neg h]
    refine min100_nonneg ?_
    have hmax : (0:ℚ) < max (cs.length : ℚ) 1 := lt_max_of_lt_right zero_lt_one
    have h1 : 0 ≤ min ((cs.length : ℚ) / 8) 1 * 30 :=
      minOne_mul_nonneg (by positivity) (by norm_num)
    have h2 : 0 ≤ min (((cs.countP fun c => certTrusted c : ℕ) : ℚ) / max (cs.length : ℚ) 1) 1 * 50 :=
      minOne_mul_nonneg (div_nonneg (by positivity) hmax.le) (by norm_num)
    have h3 : 0 ≤ min (((cs.countP fun c => certRecent y c : ℕ) : ℚ) / max (cs.length : ℚ) 1) 1 * 20 :=
      minOne_mul_nonneg (div_nonneg (by positivity) hmax.le) (by norm_num)
    linarith

lemma scoreExtracurricular_pct_le (as : List Activity) :
    (scoreExtracurricular as).percentage ≤ 100 := by
  by_cases h : as = []
  · subst h; norm_num [scoreExtracurricular]
  · simp only [scoreExtracurricular, if_neg h]
    exact min_le_right _ _

lemma scoreExtracurricular_pct_nonneg (as : List Activity) :
    0 ≤ (scoreExtracurricular as).percentage := by
  by_cases h : as = []
  · subst h; norm_num [scoreExtracurricular]
  · simp only [scoreExtracurricular, if_neg h]
    refine min100_nonneg ?_
    have hmax : (0:ℚ) < max (as.length : ℚ) 1 := lt_max_of_lt_right zero_lt_one
    have h1 : 0 ≤ min ((as.length : ℚ) / 6) 1 * 30 :=
      minOne_mul_nonneg (by positivity) (by norm_num)
    have h2 : 0 ≤ min (((as.countP fun a =>
        leadershipKeywords.any fun kw => pyIn kw (pyLower (a.role.getD "")) : ℕ) : ℚ) /
        max (as.length : ℚ) 1) 1 * 40 :=
      minOne_mul_nonneg (div_nonneg (by positivity) hmax.le) (by norm_num)
    have h3 : 0 ≤ min (((as.countP fun a => a.achievements_truthy || a.impact_truthy : ℕ) : ℚ) /
        max (as.length : ℚ) 1) 1 * 30 :=
      minOne_mul_nonneg (div_nonneg (by positivity) hmax.le) (by norm_num)
    linarith

lemma scoreGithub_pct_le (g : GithubStats) : (scoreGithub g).percentage ≤ 100 := by
  cases ht : g.truthy <;> simp only [scoreGithub, ht, Bool.not_true, Bool.not_false]
  · norm_num
  · exact min_le_right _ _

lemma scoreGithub_pct_nonneg (g : GithubStats) (h : githubNN g = true) :
    0 ≤ (scoreGithub g).percentage := by
  simp only [githubNN, Bool.and_eq_true] at h
  cases ht : g.truthy <;> simp only [scoreGithub, ht, Bool.not_true, Bool.not_false]
  · norm_num
  · refine min100_nonneg ?_
    have h1 : 0 ≤ min (g.public_repos.getD 0 / 15) 1 * 25 :=
      minOne_mul_nonneg (by have := optNN_getD le_rfl h.1.1.1; positivity) (by norm_num)
    have h2 : 0 ≤ min (g.total_contributions.getD 0 / 500) 1 * 35 :=
      minOne_mul_nonneg (by have := optNN_getD le_rfl h.1.1.2; positivity) (by norm_num)
    have h3 : 0 ≤ min (g.total_stars.getD 0 / 50) 1 * 20 :=
      minOne_mul_nonneg (by have := optNN_getD le_rfl h.1.2; positivity) (by norm_num)
    have h4 : 0 ≤ min (g.longest_streak.getD 0 / 30) 1 * 20 :=
      minOne_mul_nonneg (by have := optNN_getD le_rfl h.2; positivity) (by norm_num)
    linarith

lemma scoreLearning_pct_le (l : LearningProgress) : (scoreLearning l).percentage ≤ 100 := by
  cases ht : l.truthy <;> simp only [scoreLearning, ht, Bool.not_true, Bool.not_false]
  · norm_num
  · exact min_le_right _ _

lemma scoreLearning_pct_nonneg (l : LearningProgress) (h : learningNN l = true) :
    0 ≤ (scoreLearning l).percentage := by
  simp only [learningNN, Bool.and_eq_true] at h
  cases ht : l.truthy <;> simp only [scoreLearning, ht, Bool.not_true, Bool.not_false]
  · norm_num
  · refine min100_nonneg ?_
    have h1 : 0 ≤ min (l.completed_courses.getD 0 / 10) 1 * 40 :=
      minOne_mul_nonneg (by have := optNN_getD le_rfl h.1.1; positivity) (by norm_num)
    have h2 : 0 ≤ min (l.in_progress_courses.getD 0 / 5) 1 * 30 :=
      minOne_mul_nonneg (by have := optNN_getD le_rfl h.1.2; positivity) (by norm_num)
    have h3 : 0 ≤ min (l.total_hours.getD 0 / 100) 1 * 30 :=
      minOne_mul_nonneg (by have := optNN_getD le_rfl h.2; positivity) (by norm_num)
    linarith

lemma scoreInterviewPrep_pct_le (i : InterviewScores) :
    (scoreInterviewPrep i).percentage ≤ 100 := by
  cases ht : i.truthy <;> simp only [scoreInterviewPrep, ht, Bool.not_true, Bool.not_false]
  · norm_num
  · exact min_le_right _ _

lemma scoreInterviewPrep_pct_nonneg (i : InterviewScores) (h : interviewNN i = true) :
    0 ≤ (scoreInterviewPrep i).percentage := by
  simp only [interviewNN, Bool.and_eq_true] at h
  cases ht : i.truthy <;> simp only [scoreInterviewPrep, ht, Bool.not_true, Bool.not_false]
  · norm_num
  · refine min100_nonneg ?_
    have h1 : 0 ≤ min (i.questions_practiced.getD 0 / 50) 1 * 30 :=
      minOne_mul_nonneg (by have := optNN_getD le_rfl h.1.1; positivity) (by norm_num)
    have h2 : 0 ≤ i.average_score.getD 0 / 100 * 50 := by
      have := optNN_getD le_rfl h.1.2
      positivity
    have h3 : 0 ≤ min (i.improvement_rate.getD 0 / 20) 1 * 20 :=
      minOne_mul_nonneg (by have := optNN_getD le_rfl h.2; positivity) (by norm_num)
    linarith

lemma totalScore_le_850 (p : ProfileData) (y : ℤ) : totalScore p y ≤ 850 := by
  have h1 := scoreResume_pct_le p.resume_analysis
  have h2 := scoreSkills_pct_le p.skills p.skill_proficiency
  have h3 := scoreProjects_pct_le p.projects
  have h4 := scoreCertifications_pct_le p.certifications y
  have h5 := scoreExtracurricular_pct_le p.extracurricular
  have h6 := scoreGithub_pct_le p.github_stats
  have h7 := scoreLearning_pct_le p.learning_progress
  have h8 := scoreInterviewPrep_pct_le p.interview_scores
  unfold totalScore
  linarith

lemma totalScore_nonneg (p : ProfileData) (y : ℤ) (h : profileNN p = true) :
    0 ≤ totalScore p y := by
  simp only [profileNN, Bool.and_eq_true] at h
  have h1 := scoreResume_pct_nonneg p.resume_analysis h.1.1.1.1
  have h2 := scoreSkills_pct_nonneg p.skills p.skill_proficiency h.1.1.1.2
  have h3 := scoreProjects_pct_nonneg p.projects
  have h4 := scoreCertifications_pct_nonneg p.certifications y
  have h5 := scoreExtracurricular_pct_nonneg p.extracurricular
  have h6 := scoreGithub_pct_nonneg p.github_stats h.1.1.2
  have h7 := scoreLearning_pct_nonneg p.learning_progress h.1.2
  have h8 := scoreInterviewPrep_pct_nonneg p.interview_scores h.2
  unfold totalScore
  linarith

lemma seqStarts_trans {p n h : List Char} (h1 : seqStarts p n = true)
    (h2 : seqStarts n h = true) : seqStarts p h = true := by
  induction p generalizing n h with
  | nil => rfl
  | cons a p ih =>
    cases n with
    | nil => simp [seqStarts] at h1
    | cons b n =>
      cases h with
      | nil => simp [seqStarts] at h2
      | cons c h =>
        simp only [seqStarts, Bool.and_eq_true, beq_iff_eq] at h1 h2 ⊢
        exact ⟨h1.1.trans h2.1, ih h1.2 h2.2⟩

lemma pyInChars_mono {p n hay : List Char} (hpn : seqStarts p n = true)
    (h : pyInChars n hay = true) : pyInChars p hay = true := by
  induction hay with
  | nil => exact seqStarts_trans hpn h
  | cons b t ih =>
    simp only [pyInChars, Bool.or_eq_true] at h ⊢
    rcases h with h | h
    · exact Or.inl (seqStarts_trans hpn h)
    · exact Or.inr (ih h)

lemma pyIn_of_pyStartsWith {err pre text : String} (hs : pyStartsWith err pre = true)
    (hin : pyIn err text = true) : pyIn pre text = true :=
  pyInChars_mono hs hin

lemma dictGet_eq_none {cat : String} {l : List (String × CategoryInfo)}
    (h : cat ∉ l.map Prod.fst) : dictGet cat l = none := by
  induction l with
  | nil => rfl
  | cons hd tl ih =>
    obtain ⟨k, v⟩ := hd
    simp only [List.map_cons, List.mem_cons, not_or] at h
    have hne : ¬(k = cat) := fun e => h.1 e.symm
    simp only [dictGet, if_neg hne]
    exact ih h.2

lemma lowerSet_cons (s : String) (xs : List String) :
    lowerSet (s :: xs) = insert (pyLower s) (lowerSet xs) := by
  simp [lowerSet]

lemma requiredMatch_cons_le (xs : List String) (s : String) (info : CategoryInfo) :
    requiredMatch xs info ≤ requiredMatch (s :: xs) info := by
  unfold requiredMatch
  have hpos : (0:ℚ) < max ((lowerSet info.required_skills).card : ℚ) 1 :=
    lt_max_of_lt_right zero_lt_one
  have hsub : lowerSet xs ∩ lowerSet info.required_skills ⊆
      lowerSet (s :: xs) ∩ lowerSet info.required_skills := by
    rw [lowerSet_cons]
    exact Finset.inter_subset_inter (Finset.subset_insert _ _) Finset.Subset.rfl
  have hcard : ((lowerSet xs ∩ lowerSet info.required_skills).card : ℚ) ≤
      ((lowerSet (s :: xs) ∩ lowerSet info.required_skills).card : ℚ) := by
    exact_mod_cast Finset.card_le_card hsub
  exact div_le_div_of_nonneg_right hcard hpos.le

lemma preferredMatch_cons_le (xs : List String) (s : String) (info : CategoryInfo) :
    preferredMatch xs info ≤ preferredMatch (s :: xs) info := by
  unfold preferredMatch
  have hpos : (0:ℚ) < max ((lowerSet info.preferred_skills).card : ℚ) 1 :=
    lt_max_of_lt_right zero_lt_one
  have hsub : lowerSet xs ∩ lowerSet info.preferred_skills ⊆
      lowerSet (s :: xs) ∩ lowerSet info.preferred_skills := by
    rw [lowerSet_cons]
    exact Finset.inter_subset_inter (Finset.subset_insert _ _) Finset.Subset.rfl
  have hcard : ((lowerSet xs ∩ lowerSet info.preferred_skills).card : ℚ) ≤
      ((lowerSet (s :: xs) ∩ lowerSet info.preferred_skills).card : ℚ) := by
    exact_mod_cast Finset.card_le_card hsub
  exact div_le_div_of_nonneg_right hcard hpos.le

lemma skillScore_cons_le (xs : List String) (s : String) (info : CategoryInfo) :
    skillScore xs info ≤ skillScore (s :: xs) info := by
  have h1 := requiredMatch_cons_le xs s info
  have h2 := preferredMatch_cons_le xs s info
  unfold skillScore
  linarith

lemma entryLE_trans : ∀ (a b c : MatchEntry), entryLE a b → entryLE b c → entryLE a c := by
  intro a b c hab hbc
  simp only [entryLE, decide_eq_true_eq] at hab hbc ⊢
  exact le_trans hbc hab

lemma entryLE_total : ∀ (a b : MatchEntry), entryLE a b || entryLE b a := by
  intro a b
  simp only [entryLE, Bool.or_eq_true, decide_eq_true_eq]
  exact le_total _ _

lemma catalogMatches_length (p : CandidateProfile) : (catalogMatches p).length = 12 := by
  rw [catalogMatches, List.length_map]
  decide

lemma scoreResume_emptyRA : (scoreResume emptyRA).percentage = 14 := by
  norm_num [scoreResume, emptyRA, boolRat, min_def]

lemma scoreResume_negRA : (scoreResume negRA).percentage = -386 := by
  norm_num [scoreResume, negRA, boolRat, min_def]

lemma scoreResume_negRA10k : (scoreResume negRA10k).percentage = -3986 := by
  norm_num [scoreResume, negRA10k, boolRat, min_def]

lemma scoreResume_fullResume : (scoreResume fullResume).percentage = 100 := by
  norm_num [scoreResume, fullResume, boolRat, min_def]

lemma scoreSkills_nil : (scoreSkills [] []).percentage = 20 := by
  norm_num [scoreSkills, boolRat, min_def]

lemma scoreSkills_gap : (scoreSkills fifteenSkills [100]).percentage = 100 := by
  have hl : fifteenSkills.length = 15 := by decide
  have ht : (fifteenSkills.any fun s => techKeywords.any fun kw => pyIn kw (pyLower s)) = true := by
    decide
  have hs : (fifteenSkills.any fun s => softKeywords.any fun kw => pyIn kw (pyLower s)) = true := by
    decide
  norm_num [scoreSkills, hl, ht, hs, boolRat, min_def]

lemma scoreProjects_nil : (scoreProjects []).percentage = 0 := by
  norm_num [scoreProjects]

lemma projectQuality_fullProject (lang : String) : projectQuality (fullProject lang) = 100 := by
  have hb : ("complex system" == "") = false := by decide
  have hc : pyIn "complex" (pyLower "complex system") = true := by decide
  norm_num [projectQuality, fullProject, optStrTruthy, hb, hc, min_def]

lemma scoreProjects_gap : (scoreProjects gapProjects).percentage = 100 := by
  have hne : gapProjects ≠ [] := by decide
  have hlen : gapProjects.length = 8 := by decide
  have hsum : (gapProjects.map projectQuality).sum = 800 := by
    norm_num [gapProjects, projectQuality_fullProject]
  have hlang : ((gapProjects.map (fun p => p.language.getD "Unknown")).eraseDups).length = 4 := by
    decide
  simp only [scoreProjects, if_neg hne]
  rw [hsum, hlen, hlang]
  norm_num [min_def]

lemma scoreCertifications_nil (y : ℤ) : (scoreCertifications [] y).percentage = 0 := by
  norm_num [scoreCertifications]

lemma scoreCertifications_gap : (scoreCertifications gapCerts 2026).percentage = 100 := by
  have hne : gapCerts ≠ [] := by decide
  have hlen : gapCerts.length = 8 := by decide
  have h1 : gapCerts.countP (fun c => certTrusted c) = 8 := by decide
  have h2 : gapCerts.countP (fun c => certRecent 2026 c) = 8 := by decide
  norm_num [scoreCertifications, hne, hlen, h1, h2, min_def, max_def]

lemma scoreCertifications_oneCert_2026 :
    (scoreCertifications [googleCert] 2026).percentage = 295 / 4 := by
  have h1 : [googleCert].countP (fun c => certTrusted c) = 1 := by decide
  have h2 : [googleCert].countP (fun c => certRecent 2026 c) = 1 := by decide
  norm_num [scoreCertifications, h1, h2, min_def, max_def]

lemma scoreCertifications_oneCert_2029 :
    (scoreCertifications [googleCert] 2029).percentage = 215 / 4 := by
  have h1 : [googleCert].countP (fun c => certTrusted c) = 1 := by decide
  have h2 : [googleCert].countP (fun c => certRecent 2029 c) = 0 := by decide
  norm_num [scoreCertifications, h1, h2, min_def, max_def]

lemma scoreExtracurricular_nil : (scoreExtracurricular []).percentage = 0 := by
  norm_num [scoreExtracurricular]

lemma scoreExtracurricular_gap : (scoreExtracurricular gapActs).percentage = 100 := by
  have hne : gapActs ≠ [] := by decide
  have hlen : gapActs.length = 6 := by decide
  have h1 : gapActs.countP
      (fun a => leadershipKeywords.any fun kw => pyIn kw (pyLower (a.role.getD ""))) = 6 := by
    decide
  have h2 : gapActs.countP (fun a => a.achievements_truthy || a.impact_truthy) = 6 := by decide
  norm_num [scoreExtracurricular, hne, hlen, h1, h2, min_def, max_def]

lemma scoreGithub_emptyGH : (scoreGithub emptyGH).percentage = 0 := by
  norm_num [scoreGithub, emptyGH, GithubStats.truthy]

lemma scoreGithub_gap : (scoreGithub gapGH).percentage = 100 := by
  norm_num [scoreGithub, gapGH, GithubStats.truthy, min_def]

lemma scoreLearning_emptyLP : (scoreLearning emptyLP).percentage = 50 := by
  norm_num [scoreLearning, emptyLP, LearningProgress.truthy]

lemma scoreLearning_fullLP : (scoreLearning fullLP).percentage = 100 := by
  norm_num [scoreLearning, fullLP, LearningProgress.truthy, min_def]

lemma scoreInterviewPrep_emptyIS : (scoreInterviewPrep emptyIS).percentage = 40 := by
  norm_num [scoreInterviewPrep, emptyIS, InterviewScores.truthy]

lemma scoreInterviewPrep_gapIS : (scoreInterviewPrep gapIS).percentage = 9 / 2 := by
  norm_num [scoreInterviewPrep, gapIS, InterviewScores.truthy, min_def]

lemma scoreInterviewPrep_fullIS : (scoreInterviewPrep fullIS).percentage = 100 := by
  norm_num [scoreInterviewPrep, fullIS, InterviewScores.truthy, min_def]

lemma totalScore_negProfile : totalScore negProfile 2026 = -99807 / 20 := by
  show (scoreResume negRA10k).percentage / 100 * 127.5 +
      (scoreSkills [] []).percentage / 100 * 170 +
      (scoreProjects []).percentage / 100 * 153 +
      (scoreCertifications [] 2026).percentage / 100 * 102 +
      (scoreExtracurricular []).percentage / 100 * 85 +
      (scoreGithub emptyGH).percentage / 100 * 85 +
      (scoreLearning emptyLP).percentage / 100 * 68 +
      (scoreInterviewPrep emptyIS).percentage / 100 * 59.5 = -99807 / 20
  rw [scoreResume_negRA10k, scoreSkills_nil, scoreProjects_nil, scoreCertifications_nil,
    scoreExtracurricular_nil, scoreGithub_emptyGH, scoreLearning_emptyLP,
    scoreInterviewPrep_emptyIS]
  norm_num

lemma totalScore_gapProfile : totalScore gapProfile 2026 = 259811 / 400 := by
  show (scoreResume emptyRA).percentage / 100 * 127.5 +
      (scoreSkills fifteenSkills [100]).percentage / 100 * 170 +
      (scoreProjects gapProjects).percentage / 100 * 153 +
      (scoreCertifications gapCerts 2026).percentage / 100 * 102 +
      (scoreExtracurricular gapActs).percentage / 100 * 85 +
      (scoreGithub gapGH).percentage / 100 * 85 +
      (scoreLearning emptyLP).percentage / 100 * 68 +
      (scoreInterviewPrep gapIS).percentage / 100 * 59.5 = 259811 / 400
  rw [scoreResume_emptyRA, scoreSkills_gap, scoreProjects_gap, scoreCertifications_gap,
    scoreExtracurricular_gap, scoreGithub_gap, scoreLearning_emptyLP, scoreInterviewPrep_gapIS]
  norm_num

lemma totalScore_fullProfile : totalScore fullProfile 2026 = 850 := by
  show (scoreResume fullResume).percentage / 100 * 127.5 +
      (scoreSkills fifteenSkills [100]).percentage / 100 * 170 +
      (scoreProjects gapProjects).percentage / 100 * 153 +
      (scoreCertifications gapCerts 2026).percentage / 100 * 102 +
      (scoreExtracurricular gapActs).percentage / 100 * 85 +
      (scoreGithub gapGH).percentage / 100 * 85 +
      (scoreLearning fullLP).percentage / 100 * 68 +
      (scoreInterviewPrep fullIS).percentage / 100 * 59.5 = 850
  rw [scoreResume_fullResume, scoreSkills_gap, scoreProjects_gap, scoreCertifications_gap,
    scoreExtracurricular_gap, scoreGithub_gap, scoreLearning_fullLP, scoreInterviewPrep_fullIS]
  norm_num

end HelperLemmas

section ClaimTheorems

/-- C1 counterexample: for candidate skills `["Python", "React", "AWS"]`
against "Software Development", `required_match` is indeed 0, but the
skill-based contribution `skill_score` is 3.6, not 0 — the claim that it is
0 "regardless of preferred-skill overlap" is false at this very input. -/
theorem claim1_counterexample :
    requiredMatch c1Skills swDevInfo = 0 ∧
    skillScore c1Skills swDevInfo = 18 / 5 ∧ ((18 : ℚ) / 5 ≠ 0) := by
  have hr : (lowerSet c1Skills ∩ lowerSet swDevInfo.required_skills).card = 0 := by decide
  have hrt : (lowerSet swDevInfo.required_skills).card = 3 := by decide
  have hp : (lowerSet c1Skills ∩ lowerSet swDevInfo.preferred_skills).card = 1 := by decide
  have hpt : (lowerSet swDevInfo.preferred_skills).card = 5 := by decide
  have h1 : requiredMatch c1Skills swDevInfo = 0 := by
    unfold requiredMatch
    rw [hr, hrt]
    norm_num
  have h2 : preferredMatch c1Skills swDevInfo = 1 / 5 := by
    unfold preferredMatch
    rw [hp, hpt]
    norm_num [max_def]
  refine ⟨h1, ?_, by norm_num⟩
  unfold skillScore
  rw [h1, h2]
  norm_num

/-- C1 amended: with candidate skills `["Python", "React", "AWS"]` and the
"Software Development" category, `required_match = 0/3`, so the
required-skill term of `skill_score` vanishes, but `preferred_match = 1/5`
(Python is a preferred skill), hence
`skill_score = (0 * 0.7 + (1/5) * 0.3) * 60 = 3.6`: the skill contribution
does depend on the preferred-skill overlap. -/
theorem claim1_amended :
    (lowerSet swDevInfo.required_skills).card = 3 ∧
    (lowerSet c1Skills ∩ lowerSet swDevInfo.required_skills).card = 0 ∧
    requiredMatch c1Skills swDevInfo = 0 ∧
    preferredMatch c1Skills swDevInfo = 1 / 5 ∧
    skillScore c1Skills swDevInfo = (0 * 0.7 + 1 / 5 * 0.3) * 60 ∧
    skillScore c1Skills swDevInfo = 18 / 5 := by
  have hr : (lowerSet c1Skills ∩ lowerSet swDevInfo.required_skills).card = 0 := by decide
  have hrt : (lowerSet swDevInfo.required_skills).card = 3 := by decide
  have hp : (lowerSet c1Skills ∩ lowerSet swDevInfo.preferred_skills).card = 1 := by decide
  have hpt : (lowerSet swDevInfo.preferred_skills).card = 5 := by decide
  have h1 : requiredMatch c1Skills swDevInfo = 0 := by
    unfold requiredMatch
    rw [hr, hrt]
    norm_num
  have h2 : preferredMatch c1Skills swDevInfo = 1 / 5 := by
    unfold preferredMatch
    rw [hp, hpt]
    norm_num [max_def]
  have h3 : skillScore c1Skills swDevInfo = 18 / 5 := by
    unfold skillScore
    rw [h1, h2]
    norm_num
  exact ⟨hrt, hr, h1, h2, by rw [h3]; norm_num, h3⟩

/-- C2 counterexample: `_score_resume` on `{'ats_score': -1000}` returns
the percentage −386, outside `[0, 100]` — the scorers cap only from above. -/
theorem claim2_counterexample :
    (scoreResume negRA).percentage = -386 ∧
    ¬(0 ≤ (scoreResume negRA).percentage ∧ (scoreResume negRA).percentage ≤ 100) := by
  rw [scoreResume_negRA]
  norm_num

/-- C2 amended: every category scorer caps its percentage at 100 from above
for every input; there is no lower cap, and the percentage is nonnegative
provided the numeric input fields are nonnegative (unconditionally so for
the projects, certifications and extracurricular scorers). -/
theorem claim2_amended :
    (∀ r : ResumeAnalysis, (scoreResume r).percentage ≤ 100 ∧
      (resumeNN r = true → 0 ≤ (scoreResume r).percentage)) ∧
    (∀ (sk : List String) (pr : List ℚ), (scoreSkills sk pr).percentage ≤ 100 ∧
      (profNN pr = true → 0 ≤ (scoreSkills sk pr).percentage)) ∧
    (∀ ps : List Project, (scoreProjects ps).percentage ≤ 100 ∧
      0 ≤ (scoreProjects ps).percentage) ∧
    (∀ (cs : List Certification) (y : ℤ), (scoreCertifications cs y).percentage ≤ 100 ∧
      0 ≤ (scoreCertifications cs y).percentage) ∧
    (∀ (acts : List Activity), (scoreExtracurricular acts).percentage ≤ 100 ∧
      0 ≤ (scoreExtracurricular acts).percentage) ∧
    (∀ g : GithubStats, (scoreGithub g).percentage ≤ 100 ∧
      (githubNN g = true → 0 ≤ (scoreGithub g).percentage)) ∧
    (∀ l : LearningProgress, (scoreLearning l).percentage ≤ 100 ∧
      (learningNN l = true → 0 ≤ (scoreLearning l).percentage)) ∧
    (∀ i : InterviewScores, (scoreInterviewPrep i).percentage ≤ 100 ∧
      (interviewNN i = true → 0 ≤ (scoreInterviewPrep i).percentage)) :=
  ⟨fun r => ⟨scoreResume_pct_le r, scoreResume_pct_nonneg r⟩,
   fun sk pr => ⟨scoreSkills_pct_le sk pr, scoreSkills_pct_nonneg sk pr⟩,
   fun ps => ⟨scoreProjects_pct_le ps, scoreProjects_pct_nonneg ps⟩,
   fun cs y => ⟨scoreCertifications_pct_le cs y, scoreCertifications_pct_nonneg cs y⟩,
   fun acts => ⟨scoreExtracurricular_pct_le acts, scoreExtracurricular_pct_nonneg acts⟩,
   fun g => ⟨scoreGithub_pct_le g, scoreGithub_pct_nonneg g⟩,
   fun l => ⟨scoreLearning_pct_le l, scoreLearning_pct_nonneg l⟩,
   fun i => ⟨scoreInterviewPrep_pct_le i, scoreInterviewPrep_pct_nonneg i⟩⟩

/-- C2 witness: the amended bounds instantiated at concrete inputs, with the
nonnegativity side conditions discharged by evaluation. -/
theorem claim2_witness :
    (resumeNN emptyRA = true ∧ (scoreResume emptyRA).percentage ≤ 100 ∧
      0 ≤ (scoreResume emptyRA).percentage) ∧
    (profNN [100] = true ∧ 0 ≤ (scoreSkills fifteenSkills [100]).percentage) ∧
    (githubNN emptyGH = true ∧ 0 ≤ (scoreGithub emptyGH).percentage) ∧
    (learningNN emptyLP = true ∧ 0 ≤ (scoreLearning emptyLP).percentage) ∧
    (interviewNN emptyIS = true ∧ 0 ≤ (scoreInterviewPrep emptyIS).percentage) :=
  ⟨⟨by decide, (claim2_amended.1 emptyRA).1, (claim2_amended.1 emptyRA).2 (by decide)⟩,
   ⟨by decide, (claim2_amended.2.1 fifteenSkills [100]).2 (by decide)⟩,
   ⟨by decide, (claim2_amended.2.2.2.2.2.1 emptyGH).2 (by decide)⟩,
   ⟨by decide, (claim2_amended.2.2.2.2.2.2.1 emptyLP).2 (by decide)⟩,
   ⟨by decide, (claim2_amended.2.2.2.2.2.2.2 emptyIS).2 (by decide)⟩⟩

/-- C3 counterexample: on an empty `resume_analysis` mapping, `_score_resume`
returns 14 (driven by the hardcoded formatting default of 70), which is none
of the documented defaults 0, 40, 50. -/
theorem claim3_counterexample :
    (scoreResume emptyRA).percentage = 14 ∧
    ¬((scoreResume emptyRA).percentage = 0 ∨ (scoreResume emptyRA).percentage = 40 ∨
      (scoreResume emptyRA).percentage = 50) := by
  rw [scoreResume_emptyRA]
  norm_num

/-- C3 amended: on empty input the scorers return hardcoded defaults of
0 (projects, certifications, extracurricular, GitHub), 50 (learning) and
40 (interview readiness), but the resume scorer returns 14 (no empty-input
branch; the formatting default 70 contributes 0.7·20) and the skills scorer
returns 20 (base proficiency score). -/
theorem claim3_amended :
    (scoreResume emptyRA).percentage = 14 ∧
    (scoreSkills [] []).percentage = 20 ∧
    (scoreProjects []).percentage = 0 ∧
    (scoreProjects []).details = "No projects found" ∧
    (∀ y : ℤ, (scoreCertifications [] y).percentage = 0 ∧
      (scoreCertifications [] y).details = "No certifications") ∧
    (scoreExtracurricular []).percentage = 0 ∧
    (scoreGithub emptyGH).percentage = 0 ∧
    (scoreLearning emptyLP).percentage = 50 ∧
    (scoreInterviewPrep emptyIS).percentage = 40 :=
  ⟨scoreResume_emptyRA, scoreSkills_nil, scoreProjects_nil, by norm_num [scoreProjects],
   fun y => ⟨scoreCertifications_nil y, by norm_num [scoreCertifications]⟩,
   scoreExtracurricular_nil, scoreGithub_emptyGH, scoreLearning_emptyLP,
   scoreInterviewPrep_emptyIS⟩

lemma totalMatch_empty (info : CategoryInfo) : totalMatch emptyCand info = 0 := by
  unfold totalMatch skillScore requiredMatch preferredMatch projectScoreM certScoreM
    experienceScore relevantProjects relevantCerts
  simp [emptyCand, lowerSet]

lemma matchScoreNum_empty (info : CategoryInfo) : matchScoreNum emptyCand info = 0 := by
  unfold matchScoreNum
  rw [totalMatch_empty]
  norm_num [min_def]

lemma readiness_empty (info : CategoryInfo) :
    determineReadiness (totalMatch emptyCand info) =
      "Early Stage - Significant Preparation Needed" := by
  rw [totalMatch_empty]
  unfold determineReadiness
  norm_num

lemma findRange_gapValue : findRange (259811 / 400 : ℚ) = none := by
  have d1 : decide ((750:ℚ) ≤ 259811 / 400) = false := by
    rw [decide_eq_false_iff_not]
    norm_num
  have d2 : decide ((650:ℚ) ≤ 259811 / 400) = false := by
    rw [decide_eq_false_iff_not]
    norm_num
  have d3 : decide ((550:ℚ) ≤ 259811 / 400) = true := by
    rw [decide_eq_true_eq]
    norm_num
  have d4 : decide ((259811 / 400 : ℚ) ≤ 649) = false := by
    rw [decide_eq_false_iff_not]
    norm_num
  have d5 : decide ((450:ℚ) ≤ 259811 / 400) = true := by
    rw [decide_eq_true_eq]
    norm_num
  have d6 : decide ((259811 / 400 : ℚ) ≤ 549) = false := by
    rw [decide_eq_false_iff_not]
    norm_num
  have d7 : decide ((0:ℚ) ≤ 259811 / 400) = true := by
    rw [decide_eq_true_eq]
    norm_num
  have d8 : decide ((259811 / 400 : ℚ) ≤ 449) = false := by
    rw [decide_eq_false_iff_not]
    norm_num
  simp [findRange, SCORE_RANGES, List.find?, d1, d2, d3, d4, d5, d6, d7, d8]

lemma findRange_negValue : findRange (-99807 / 20 : ℚ) = none := by
  have d1 : decide ((750:ℚ) ≤ -99807 / 20) = false := by
    rw [decide_eq_false_iff_not]
    norm_num
  have d2 : decide ((650:ℚ) ≤ -99807 / 20) = false := by
    rw [decide_eq_false_iff_not]
    norm_num
  have d3 : decide ((550:ℚ) ≤ -99807 / 20) = false := by
    rw [decide_eq_false_iff_not]
    norm_num
  have d4 : decide ((450:ℚ) ≤ -99807 / 20) = false := by
    rw [decide_eq_false_iff_not]
    norm_num
  have d5 : decide ((0:ℚ) ≤ -99807 / 20) = false := by
    rw [decide_eq_false_iff_not]
    norm_num
  simp [findRange, SCORE_RANGES, List.find?, d1, d2, d3, d4, d5]

/-- C4 counterexample: the profile whose `ats_score` is −10000 (all other
components empty) has weighted total −4990.35, outside `[0, 850]` — there it
also falls in no `SCORE_RANGES` range, so the fallback branch of
`_get_score_info` runs. -/
theorem claim4_counterexample :
    totalScore negProfile 2026 = -99807 / 20 ∧
    ¬(0 ≤ totalScore negProfile 2026 ∧ totalScore negProfile 2026 ≤ 850) ∧
    findRange (totalScore negProfile 2026) = none := by
  refine ⟨totalScore_negProfile, ?_, ?_⟩
  · rw [totalScore_negProfile]
    norm_num
  · rw [totalScore_negProfile]
    exact findRange_negValue

/-- C4 amended: the weighted total is at most 850 for every profile and
nonnegative whenever the numeric profile fields are nonnegative; the five
rating ranges are pairwise non-overlapping, but they are not total on
achievable totals: the benign `gapProfile` reaches the non-integer total
649.5275, which lies strictly between the "Good" and "Excellent" ranges, so
the out-of-range fallback branch of `_get_score_info` is reachable (it
reports "Building"). -/
theorem claim4_amended :
    (∀ (p : ProfileData) (year : ℤ), totalScore p year ≤ 850) ∧
    (∀ (p : ProfileData) (year : ℤ), profileNN p = true → 0 ≤ totalScore p year) ∧
    (∀ (q : ℚ) (r₁ r₂ : (ℚ × ℚ) × String), r₁ ∈ SCORE_RANGES → r₂ ∈ SCORE_RANGES →
      r₁.1.1 ≤ q → q ≤ r₁.1.2 → r₂.1.1 ≤ q → q ≤ r₂.1.2 → r₁ = r₂) ∧
    (totalScore gapProfile 2026 = 259811 / 400 ∧
      (649 : ℚ) < 259811 / 400 ∧ (259811 : ℚ) / 400 < 650 ∧
      findRange (totalScore gapProfile 2026) = none ∧
      (calculateComprehensiveScore gapProfile 2026).rating = "Building") := by
  refine ⟨totalScore_le_850, totalScore_nonneg, ?_, totalScore_gapProfile,
    by norm_num, by norm_num, ?_, ?_⟩
  · intro q r₁ r₂ h₁ h₂ ha hb hc hd
    simp only [SCORE_RANGES, List.mem_cons, List.not_mem_nil, or_false] at h₁ h₂
    rcases h₁ with rfl | rfl | rfl | rfl | rfl <;>
      rcases h₂ with rfl | rfl | rfl | rfl | rfl <;>
        first
          | rfl
          | (exfalso; dsimp only at ha hb hc hd; linarith)
  · rw [totalScore_gapProfile]
    exact findRange_gapValue
  · show getScoreInfo (totalScore gapProfile 2026) = "Building"
    rw [totalScore_gapProfile, getScoreInfo, findRange_gapValue]
    rfl

/-- C4 witness: the amended bounds and the range-disjointness instantiated
at concrete inputs, with every hypothesis discharged by evaluation. -/
theorem claim4_witness :
    totalScore negProfile 2026 ≤ 850 ∧
    (profileNN gapProfile = true ∧ 0 ≤ totalScore gapProfile 2026) ∧
    ((((750:ℚ), (850:ℚ)), "Exceptional") ∈ SCORE_RANGES ∧
      ((((750:ℚ), (850:ℚ)), "Exceptional") : (ℚ × ℚ) × String) =
        (((750:ℚ), (850:ℚ)), "Exceptional")) :=
  ⟨claim4_amended.1 negProfile 2026,
   ⟨by decide, claim4_amended.2.1 gapProfile 2026 (by decide)⟩,
   ⟨by simp [SCORE_RANGES],
    claim4_amended.2.2.1 800 _ _ (by simp [SCORE_RANGES]) (by simp [SCORE_RANGES])
      (by norm_num) (by norm_num) (by norm_num) (by norm_num)⟩⟩

/-- C8 counterexample: `_score_certifications` on the bit-identical
one-certification input (dated 2025-01-01) returns 73.75% when the clock
year is 2026 but 53.75% when it is 2029: the result is not a function of the
input alone. -/
theorem claim8_counterexample :
    (scoreCertifications [googleCert] 2026).percentage = 295 / 4 ∧
    (scoreCertifications [googleCert] 2029).percentage = 215 / 4 ∧
    scoreCertifications [googleCert] 2026 ≠ scoreCertifications [googleCert] 2029 := by
  refine ⟨scoreCertifications_oneCert_2026, scoreCertifications_oneCert_2029, fun h => ?_⟩
  have : (scoreCertifications [googleCert] 2026).percentage =
      (scoreCertifications [googleCert] 2029).percentage := by rw [h]
  rw [scoreCertifications_oneCert_2026, scoreCertifications_oneCert_2029] at this
  norm_num at this

/-- C8 amended: every scorer is stateless, but the comprehensive score is a
function of the input and the clock year, not of the input alone: the clock
enters only through the certification recency term, so whenever the
certifications component is unchanged between two clock readings the whole
`calculate_comprehensive_score` result is unchanged. -/
theorem claim8_amended (p : ProfileData) (y y' : ℤ)
    (h : scoreCertifications p.certifications y = scoreCertifications p.certifications y') :
    calculateComprehensiveScore p y = calculateComprehensiveScore p y' := by
  simp only [calculateComprehensiveScore, totalScore, h]

/-- C8 witness: with no certifications the certification score is
year-independent, so the comprehensive result of the empty profile is
identical across the clock years 2024 and 2025. -/
theorem claim8_witness :
    scoreCertifications emptyProfile.certifications 2024 =
      scoreCertifications emptyProfile.certifications 2025 ∧
    calculateComprehensiveScore emptyProfile 2024 = calculateComprehensiveScore emptyProfile 2025 :=
  ⟨rfl, claim8_amended emptyProfile 2024 2025 rfl⟩

/-- C9 counterexample: the catalog has 12 keys (Software Development through
Research), not 11 as the claim states. -/
theorem claim9_counterexample :
    INTERNSHIP_CATEGORIES.length = 12 ∧ INTERNSHIP_CATEGORIES.length ≠ 11 := by
  decide

/-- C9 amended: for every candidate profile and every category name that is
not among the 12 keys of the `INTERNSHIP_CATEGORIES` catalog,
`calculate_match_score` returns (without raising) exactly the error dict
`{'match_score': 0, 'error': 'Invalid category'}` and none of the normal
analysis fields. -/
theorem claim9_amended (p : CandidateProfile) (cat : String)
    (h : cat ∉ INTERNSHIP_CATEGORIES.map Prod.fst) :
    calculateMatchScore p cat = MatchResult.invalidCategory := by
  unfold calculateMatchScore
  rw [dictGet_eq_none h]

/-- C9 witness: "Quantum Computing" is not a catalog key, and the match
result for it is the invalid-category error dict. -/
theorem claim9_witness :
    "Quantum Computing" ∉ INTERNSHIP_CATEGORIES.map Prod.fst ∧
    calculateMatchScore emptyCand "Quantum Computing" = MatchResult.invalidCategory :=
  ⟨by decide, claim9_amended emptyCand "Quantum Computing" (by decide)⟩

/-- C10: for every profile whose weighted total is at least 810 the reported
percentile exceeds 100; the percentile of the maximum total 850 is 105, and
850 is achievable: `fullProfile` reaches it (clock year 2026), and its
comprehensive result carries percentile 105. -/
theorem claim10_theorem :
    (∀ (p : ProfileData) (y : ℤ), 810 ≤ totalScore p y →
      100 < calculatePercentile (totalScore p y)) ∧
    calculatePercentile 850 = 105 ∧
    totalScore fullProfile 2026 = 850 ∧
    (calculateComprehensiveScore fullProfile 2026).percentile = 105 := by
  have hmain : ∀ s : ℚ, 810 ≤ s → 100 < calculatePercentile s := by
    intro s hs
    have h750 : s ≥ 750 := by linarith
    have hq : (0:ℚ) ≤ (s - 750) / 10 := by linarith
    have hfl : (6:ℤ) ≤ ⌊(s - 750) / 10⌋ := by
      rw [Int.le_floor]
      push_cast
      linarith
    unfold calculatePercentile pyTrunc
    rw [if_pos h750, if_pos hq]
    omega
  have h850 : calculatePercentile 850 = 105 := by
    unfold calculatePercentile pyTrunc
    rw [if_pos (by norm_num : (850:ℚ) ≥ 750), if_pos (by norm_num : (0:ℚ) ≤ ((850:ℚ) - 750) / 10)]
    norm_num
  refine ⟨fun p y h => hmain _ h, h850, totalScore_fullProfile, ?_⟩
  show calculatePercentile (totalScore fullProfile 2026) = 105
  rw [totalScore_fullProfile, h850]

/-- C10 witness: the percentile bound applied at `fullProfile`, whose total
is 850 ≥ 810. -/
theorem claim10_witness :
    810 ≤ totalScore fullProfile 2026 ∧
    100 < calculatePercentile (totalScore fullProfile 2026) :=
  have h : 810 ≤ totalScore fullProfile 2026 := by
    rw [totalScore_fullProfile]
    norm_num
  ⟨h, claim10_theorem.1 fullProfile 2026 h⟩

/-- C5: for every candidate profile and catalog category, adding one of the
required skills of the category (case-insensitively) to the skill list of
the candidate, holding projects, certifications, extracurricular activities
and the other skills fixed, never decreases the match score. -/
theorem claim5_theorem (p : CandidateProfile) (cat : String) (info : CategoryInfo)
    (hmem : (cat, info) ∈ INTERNSHIP_CATEGORIES) (s : String)
    (hreq : pyLower s ∈ lowerSet info.required_skills) :
    matchScoreNum p info ≤ matchScoreNum { p with skills := s :: p.skills } info := by
  unfold matchScoreNum
  refine min_le_min ?_ le_rfl
  show totalMatch p info ≤ totalMatch { p with skills := s :: p.skills } info
  unfold totalMatch
  dsimp only
  have h1 := skillScore_cons_le p.skills s info
  have h2 : experienceScore { p with skills := s :: p.skills } = experienceScore p := rfl
  linarith

/-- C5 witness: adding the required skill "Statistics" for the Data
Science/Analytics category to a candidate knowing only "python" does not
decrease the match score. -/
theorem claim5_witness :
    ("Data Science/Analytics", dataSciInfo) ∈ INTERNSHIP_CATEGORIES ∧
    pyLower "Statistics" ∈ lowerSet dataSciInfo.required_skills ∧
    matchScoreNum c5Profile dataSciInfo ≤
      matchScoreNum { c5Profile with skills := "Statistics" :: c5Profile.skills } dataSciInfo :=
  ⟨by decide, by decide,
   claim5_theorem c5Profile "Data Science/Analytics" dataSciInfo (by decide) "Statistics"
     (by decide)⟩

set_option maxRecDepth 40000 in
/-- C6 counterexample: when the provider result is "Error: test" and the
missing-skill list contains that very string, the fallback text that
`enhance_resume_section` returns embeds the error-prefixed string — it is
not true that the error string is never contained in the returned result. -/
theorem claim6_counterexample :
    pyStartsWith "Error: test" "Error:" = true ∧
    enhanceResumeSection true "Error: test" "" ["Error: test"] =
      resumeImprovementsFallback "" ["Error: test"] ∧
    pyIn "Error: test" (enhanceResumeSection true "Error: test" "" ["Error: test"]) = true := by
  refine ⟨by decide, rfl, by decide⟩

set_option maxRecDepth 40000 in
/-- C6 amended: whenever the provider result starts with "Error:", each
generator returns its local fallback: a constant text for
`generate_project_ideas` and `generate_cover_letter` — in which case the
error-prefixed string can never occur in the result — and, for
`enhance_resume_section`, the deterministic
`_generate_resume_improvements_fallback` of the inputs, which can echo an
error-looking string only if the inputs themselves contain it. -/
theorem claim6_amended :
    (∀ (res jd : String) (ms : List String), pyStartsWith res "Error:" = true →
      enhanceResumeSection true res jd ms = resumeImprovementsFallback jd ms) ∧
    (∀ res : String, pyStartsWith res "Error:" = true →
      generateProjectIdeas true res = projectIdeasFallbackText ∧
      pyIn res (generateProjectIdeas true res) = false) ∧
    (∀ res : String, pyStartsWith res "Error:" = true →
      generateCoverLetter true res = coverLetterFallbackText ∧
      pyIn res (generateCoverLetter true res) = false) := by
  have hproj : pyIn "Error:" projectIdeasFallbackText = false := by decide
  have hcov : pyIn "Error:" coverLetterFallbackText = false := by decide
  refine ⟨?_, ?_, ?_⟩
  · intro res jd ms h
    simp [enhanceResumeSection, h]
  · intro res h
    have heq : generateProjectIdeas true res = projectIdeasFallbackText := by
      simp [generateProjectIdeas, h]
    refine ⟨heq, ?_⟩
    rw [heq]
    cases hc : pyIn res projectIdeasFallbackText with
    | false => rfl
    | true => exact absurd (pyIn_of_pyStartsWith h hc) (by simp [hproj])
  · intro res h
    have heq : generateCoverLetter true res = coverLetterFallbackText := by
      simp [generateCoverLetter, h]
    refine ⟨heq, ?_⟩
    rw [heq]
    cases hc : pyIn res coverLetterFallbackText with
    | false => rfl
    | true => exact absurd (pyIn_of_pyStartsWith h hc) (by simp [hcov])

set_option maxRecDepth 40000 in
/-- C6 witness: the fallback substitutions and the no-error-containment
facts at the concrete provider result "Error: boom". -/
theorem claim6_witness :
    pyStartsWith "Error: boom" "Error:" = true ∧
    enhanceResumeSection true "Error: boom" "jd text" ["SQL"] =
      resumeImprovementsFallback "jd text" ["SQL"] ∧
    generateProjectIdeas true "Error: boom" = projectIdeasFallbackText ∧
    pyIn "Error: boom" (generateProjectIdeas true "Error: boom") = false ∧
    generateCoverLetter true "Error: boom" = coverLetterFallbackText ∧
    pyIn "Error: boom" (generateCoverLetter true "Error: boom") = false :=
  ⟨by decide,
   claim6_amended.1 "Error: boom" "jd text" ["SQL"] (by decide),
   (claim6_amended.2.1 "Error: boom" (by decide)).1,
   (claim6_amended.2.1 "Error: boom" (by decide)).2,
   (claim6_amended.2.2 "Error: boom" (by decide)).1,
   (claim6_amended.2.2 "Error: boom" (by decide)).2⟩

/-- C7: `find_best_matches` is the catalog-ordered match list, stably sorted
by match score descending and truncated to `top_n` entries: the result is
the `top_n`-prefix of a sorted permutation of the catalog list in which
every catalog-ordered pair of equal-score entries keeps its insertion
order. -/
theorem claim7_theorem (p : CandidateProfile) (n : ℕ) :
    findBestMatches p n = ((catalogMatches p).mergeSort entryLE).take n ∧
    (findBestMatches p n).length = min n 12 ∧
    ((catalogMatches p).mergeSort entryLE).Pairwise
      (fun a b => b.match_score ≤ a.match_score) ∧
    ((catalogMatches p).mergeSort entryLE).Perm (catalogMatches p) ∧
    (∀ a b : MatchEntry, [a, b].Sublist (catalogMatches p) → a.match_score = b.match_score →
      [a, b].Sublist ((catalogMatches p).mergeSort entryLE)) := by
  refine ⟨rfl, ?_, ?_, List.mergeSort_perm _ _, ?_⟩
  · rw [findBestMatches, List.length_take,
      (List.mergeSort_perm (catalogMatches p) entryLE).length_eq, catalogMatches_length]
  · exact List.Pairwise.imp (fun h => of_decide_eq_true h)
      (List.sorted_mergeSort entryLE_trans entryLE_total (catalogMatches p))
  · intro a b hsub heq
    refine List.pair_sublist_mergeSort entryLE_trans entryLE_total ?_ hsub
    simp [entryLE, heq]

/-- C7 witness: on the empty candidate the first two catalog entries have
equal (zero) match scores, and the sorted list keeps them in catalog
order. -/
theorem claim7_witness :
    [entrySoftwareDev, entryDataSci].Sublist (catalogMatches emptyCand) ∧
    entrySoftwareDev.match_score = entryDataSci.match_score ∧
    [entrySoftwareDev, entryDataSci].Sublist ((catalogMatches emptyCand).mergeSort entryLE) := by
  have htake : (catalogMatches emptyCand).take 2 = [entrySoftwareDev, entryDataSci] := by
    simp [catalogMatches, INTERNSHIP_CATEGORIES, matchAnalysis, matchScoreNum_empty,
      readiness_empty, entrySoftwareDev, entryDataSci]
  have hsub : [entrySoftwareDev, entryDataSci].Sublist (catalogMatches emptyCand) :=
    htake ▸ List.take_sublist 2 (catalogMatches emptyCand)
  exact ⟨hsub, rfl, (claim7_theorem emptyCand 2).2.2.2.2 _ _ hsub rfl⟩

end ClaimTheorems
